import Mathlib

/-!
Verification model of the spotify-shuffle repository.

The Python sources modelled here are `get_liked_songs.py`,
`update_true_shuffle.py`, `src/utils.py` and `src/update_true_shuffle.py`.
Pure logic (timestamp normalisation, change detection, cache round-trip,
sampling, batching, the get-or-create control flow) is embedded shallowly;
external collaborators (the Spotify client, the clock, the random source)
are passed in as explicit data.
-/

namespace SpotifyShuffle

/-! ## Timestamp model

Python `datetime` values are modelled by a wall-clock value in microseconds
(computed from the proleptic Gregorian ordinal, as `datetime.toordinal` does)
together with an optional UTC-offset in seconds; `none` models a naive
datetime. `datetime.fromisoformat` is an external (stdlib) collaborator: it
is modelled for the ISO-8601 forms the program feeds it — `YYYY-MM-DD`,
optionally followed by a `T` or space separator and `HH:MM:SS`, an optional
fractional-second part of one to six digits, and an optional `+HH:MM` or
`-HH:MM` offset. Malformed strings yield `none`, modelling `ValueError`. -/

structure PyDatetime where
  wall : Int
  tz : Option Int
deriving DecidableEq, Repr

/-- Absolute instant (microseconds) of a datetime; aware datetimes subtract
their offset, which is how Python compares two aware datetimes. -/
def PyDatetime.instant (d : PyDatetime) : Int :=
  d.wall - 1000000 * (d.tz.getD 0)

/-- Models `d.replace(tzinfo=timezone.utc)`: keep the wall clock, set offset 0. -/
def PyDatetime.withUTC (d : PyDatetime) : PyDatetime :=
  { wall := d.wall, tz := some 0 }

def digitVal (c : Char) : Nat := c.toNat - 48

/-- Read exactly two ASCII digits from the front of a character list. -/
def digits2 : List Char → Option (Nat × List Char)
  | a :: b :: rest =>
    if a.isDigit && b.isDigit then some (10 * digitVal a + digitVal b, rest) else none
  | _ => none

/-- Read exactly four ASCII digits from the front of a character list. -/
def digits4 : List Char → Option (Nat × List Char)
  | a :: b :: c :: d :: rest =>
    if a.isDigit && b.isDigit && c.isDigit && d.isDigit then
      some (1000 * digitVal a + 100 * digitVal b + 10 * digitVal c + digitVal d, rest)
    else none
  | _ => none

def expectChar (c : Char) : List Char → Option (List Char)
  | x :: rest => if x = c then some rest else none
  | [] => none

def isLeapYear (y : Nat) : Bool :=
  (y % 4 == 0 && y % 100 != 0) || y % 400 == 0

def daysInMonth (y m : Nat) : Nat :=
  if m = 1 || m = 3 || m = 5 || m = 7 || m = 8 || m = 10 || m = 12 then 31
  else if m = 4 || m = 6 || m = 9 || m = 11 then 30
  else if isLeapYear y then 29
  else 28

def daysBeforeMonth (y m : Nat) : Nat :=
  ((List.range m).filter (fun k => 1 ≤ k)).foldl (fun acc k => acc + daysInMonth y k) 0

/-- Proleptic Gregorian ordinal of a date, as Python `date.toordinal`. -/
def dateOrdinal (y m d : Nat) : Nat :=
  365 * (y - 1) + (y - 1) / 4 - (y - 1) / 100 + (y - 1) / 400 + daysBeforeMonth y m + d

/-- Wall-clock microseconds of a date-time. -/
def wallMicros (y mo d h mi s us : Nat) : Int :=
  (((dateOrdinal y mo d) * 86400 + h * 3600 + mi * 60 + s) * 1000000 + us : Nat)

def natOfDigits (ds : List Char) : Nat :=
  ds.foldl (fun acc c => 10 * acc + digitVal c) 0

/-- Optional fractional-second part: a dot followed by one to six digits,
scaled to microseconds. No dot yields zero microseconds. -/
def parseFraction : List Char → Option (Nat × List Char)
  | '.' :: rest =>
      let ds := rest.takeWhile Char.isDigit
      if 1 ≤ ds.length && ds.length ≤ 6 then
        some (natOfDigits ds * 10 ^ (6 - ds.length), rest.drop ds.length)
      else none
  | r => some (0, r)

/-- Optional trailing UTC offset `+HH:MM` or `-HH:MM` (seconds, signed).
Empty input means a naive datetime. -/
def parseOffset : List Char → Option (Option Int)
  | [] => some none
  | sign :: rest =>
    if sign = '+' || sign = '-' then
      match digits2 rest with
      | none => none
      | some (oh, r1) =>
        match expectChar ':' r1 with
        | none => none
        | some r2 =>
          match digits2 r2 with
          | none => none
          | some (om, r3) =>
            if r3 = [] && oh ≤ 23 && om ≤ 59 then
              let secs : Int := (oh * 3600 + om * 60 : Nat)
              some (some (if sign = '-' then -secs else secs))
            else none
    else none

/-- Model of `datetime.fromisoformat` on the forms this program feeds it. -/
def fromisoformat (s : String) : Option PyDatetime :=
  match digits4 s.data with
  | none => none
  | some (y, r1) =>
    match expectChar '-' r1 with
    | none => none
    | some r2 =>
      match digits2 r2 with
      | none => none
      | some (mo, r3) =>
        match expectChar '-' r3 with
        | none => none
        | some r4 =>
          match digits2 r4 with
          | none => none
          | some (d, r5) =>
            if 1 ≤ y && 1 ≤ mo && mo ≤ 12 && 1 ≤ d && d ≤ daysInMonth y mo then
              match r5 with
              | [] => some { wall := wallMicros y mo d 0 0 0 0, tz := none }
              | sep :: r6 =>
                if sep = 'T' || sep = ' ' then
                  match digits2 r6 with
                  | none => none
                  | some (h, r7) =>
                    match expectChar ':' r7 with
                    | none => none
                    | some r8 =>
                      match digits2 r8 with
                      | none => none
                      | some (mi, r9) =>
                        match expectChar ':' r9 with
                        | none => none
                        | some r10 =>
                          match digits2 r10 with
                          | none => none
                          | some (sec, r11) =>
                            if h ≤ 23 && mi ≤ 59 && sec ≤ 59 then
                              match parseFraction r11 with
                              | none => none
                              | some (us, r12) =>
                                match parseOffset r12 with
                                | none => none
                                | some tz =>
                                  some { wall := wallMicros y mo d h mi sec us, tz := tz }
                            else none
                else none
            else none

/-! ## Change detector (`get_new_liked_songs_since`, get_liked_songs.py lines 71-138)

The cached-timestamp normalisation (lines 98-112) and the per-item added-at
normalisation (lines 118-131) branch on the presence of `Z`, `+`, or a third
dash before calling `fromisoformat`, then force naive results to UTC.
Exceptions (`ValueError` from parsing, `KeyError` from a missing field) are
caught exactly where the Python code catches them. -/

/-- Membership test `c in s` on Python strings. -/
def strContains (s : String) (c : Char) : Bool :=
  s.data.any (fun x => x = c)

/-- Python `s.count(c)` for a single-character needle. -/
def strCount (s : String) (c : Char) : Nat :=
  s.data.countP (fun x => x = c)

def replaceZList : List Char → List Char
  | [] => []
  | c :: rest =>
    if c = 'Z' then '+' :: '0' :: '0' :: ':' :: '0' :: '0' :: replaceZList rest
    else c :: replaceZList rest

/-- Python `s.replace(single-char-Z, plus-zero-offset)`: every occurrence of
`Z` becomes the six characters of the `+00:00` offset. -/
def replaceZ (s : String) : String :=
  String.mk (replaceZList s.data)

/-- Normalisation of the cached timestamp, get_liked_songs.py lines 98-112;
`none` models the caught `ValueError` path (function returns `None`). -/
def parseSinceTimestamp (s : String) : Option PyDatetime :=
  let parsed :=
    if strContains s 'Z' || strContains s '+' || strCount s '-' > 2 then
      fromisoformat (replaceZ s)
    else
      (fromisoformat s).map PyDatetime.withUTC
  parsed.map (fun d => if d.tz.isNone then d.withUTC else d)

/-- Normalisation of one item's added-at string, get_liked_songs.py
lines 118-131; `none` models the caught `ValueError`. -/
def parseAddedAt (s : String) : Option PyDatetime :=
  let parsed :=
    if strContains s 'Z' then
      fromisoformat (replaceZ s)
    else if strContains s '+' || strCount s '-' > 2 then
      fromisoformat s
    else
      (fromisoformat s).map PyDatetime.withUTC
  parsed.map (fun d => if d.tz.isNone then d.withUTC else d)

/-- A saved-track item as this program reads it: the `added_at` field (absent
models a `KeyError`) and the nested track URI. -/
structure Track where
  added_at : Option String
  uri : String
deriving DecidableEq, Repr

/-- Filter predicate of the loop at get_liked_songs.py lines 116-136: an item
counts as new when its added-at field is present, parses, and its instant
strictly exceeds the cache instant; missing or unparseable fields are skipped
by the caught `KeyError` and `ValueError`. -/
def isNewSince (sinceDt : PyDatetime) (item : Track) : Bool :=
  match item.added_at with
  | none => false
  | some a =>
    match parseAddedAt a with
    | none => false
    | some d => sinceDt.instant < d.instant

/-- Model of `get_new_liked_songs_since` (get_liked_songs.py lines 71-138).
The remote collection is passed as the list its full paginated fetch would
drain; the second component counts full paginated fetch passes performed
(the fetch at lines 88-94 happens before the timestamp is parsed, so even
the parse-error path has already cost one pass). -/
def get_new_liked_songs_since (remote : List Track) (since_timestamp : Option String) :
    Option (List Track) × Nat :=
  match since_timestamp with
  | none => (none, 0)
  | some s =>
    let all_tracks := remote
    match parseSinceTimestamp s with
    | none => (none, 1)
    | some sinceDt => (some (all_tracks.filter (isNewSince sinceDt)), 1)

/-! ## Cache store (get_liked_songs.py lines 30-68)

The on-disk cache file is modelled by what `json.load` would make of its
content: `absent` (no file), `malformed` (bytes that raise
`JSONDecodeError`), `nonObject` (valid JSON that is not an object, such as a
file containing `[]` — `cache_data.get` then raises `AttributeError`, which
the `except (json.JSONDecodeError, KeyError)` clause does not catch), or an
object with optional `tracks`, `timestamp` and `total_count` fields
(`dict.get` supplies the defaults for absent keys and never raises). -/

inductive PyError where
  | attributeError
  | transportError
deriving DecidableEq, Repr

structure CacheObj where
  tracks : Option (List Track)
  timestamp : Option String
  total_count : Option Nat
deriving DecidableEq, Repr

inductive DiskCache where
  | absent
  | malformed
  | nonObject
  | object (o : CacheObj)
deriving DecidableEq, Repr

/-- Model of `save_liked_songs_to_disk` (lines 30-46): the JSON object
written to disk. The clock reading `datetime.now(timezone.utc).isoformat()`
is passed in as `now`. -/
def save_liked_songs_to_disk (tracks : List Track) (now : String) : DiskCache :=
  DiskCache.object { tracks := some tracks, timestamp := some now, total_count := some tracks.length }

/-- Model of `load_liked_songs_from_disk` (lines 49-68). A missing file and a
`JSONDecodeError` both yield `(None, None)`; a JSON object yields
`(data.get tracks [], data.get timestamp empty)`; JSON that is not an object
raises `AttributeError` through the caller. -/
def load_liked_songs_from_disk (disk : DiskCache) :
    Except PyError (Option (List Track) × Option String) :=
  match disk with
  | DiskCache.absent => Except.ok (none, none)
  | DiskCache.malformed => Except.ok (none, none)
  | DiskCache.nonObject => Except.error PyError.attributeError
  | DiskCache.object o => Except.ok (some (o.tracks.getD []), some (o.timestamp.getD ""))

/-! ## Reconciliation controller (`get_liked_songs`, get_liked_songs.py lines 163-217) -/

/-- The world a run of `get_liked_songs` sees: the cache file on disk, the
remote saved-tracks collection (as one full paginated pass would drain it),
and the clock string used when saving. -/
structure Env where
  disk : DiskCache
  remote : List Track
  now : String
deriving DecidableEq, Repr

instance {ε α : Type} [DecidableEq ε] [DecidableEq α] : DecidableEq (Except ε α) := fun a b =>
  match a, b with
  | Except.ok x, Except.ok y =>
    if h : x = y then isTrue (by rw [h]) else isFalse (by intro hc; cases hc; exact h rfl)
  | Except.error x, Except.error y =>
    if h : x = y then isTrue (by rw [h]) else isFalse (by intro hc; cases hc; exact h rfl)
  | Except.ok _, Except.error _ => isFalse (by intro hc; cases hc)
  | Except.error _, Except.ok _ => isFalse (by intro hc; cases hc)

/-- Observable outcome of a run: the returned list (or propagated exception),
the number of full paginated fetch passes over the saved-tracks collection,
and the final state of the cache file. -/
structure RunResult where
  result : Except PyError (List Track)
  fetchPasses : Nat
  finalDisk : DiskCache
deriving DecidableEq, Repr

/-- The fall-through full fetch of get_liked_songs.py lines 199-217: one more
full paginated pass, an optional save, and the fresh list returned. -/
def fullFetchFrom (env : Env) (save_to_disk : Bool) (passes : Nat) : RunResult :=
  { result := Except.ok env.remote
    fetchPasses := passes + 1
    finalDisk := if save_to_disk then save_liked_songs_to_disk env.remote env.now else env.disk }

/-- Model of `get_liked_songs` (lines 163-217). When the cache loads and the
change check finds nothing new, the cached list is served with no further
fetch; a non-empty new-item list or an indeterminate check falls through to
the full fetch; an exception out of `load` propagates. -/
def get_liked_songs (env : Env) (save_to_disk use_cache : Bool) : RunResult :=
  if use_cache then
    match load_liked_songs_from_disk env.disk with
    | Except.error e => { result := Except.error e, fetchPasses := 0, finalDisk := env.disk }
    | Except.ok (cached?, ts?) =>
      match cached? with
      | some cached_tracks =>
        match (get_new_liked_songs_since env.remote ts?).1 with
        | some new_tracks =>
          if new_tracks.length > 0 then
            fullFetchFrom env save_to_disk (get_new_liked_songs_since env.remote ts?).2
          else
            { result := Except.ok cached_tracks
              fetchPasses := (get_new_liked_songs_since env.remote ts?).2
              finalDisk := env.disk }
        | none => fullFetchFrom env save_to_disk (get_new_liked_songs_since env.remote ts?).2
      | none => fullFetchFrom env save_to_disk 0
  else
    fullFetchFrom env save_to_disk 0

/-! ## Sampler (`random.sample` and update_true_shuffle.py lines 144-153)

`random.sample(population, k)` is an external (stdlib) collaborator: it
draws `k` elements without replacement, i.e. from `k` distinct positions of
the population. It is modelled by selection without replacement driven by an
arbitrary index source `rand`: at each step one position of the remaining
population is taken and removed. -/

def pySample {α : Type} (rand : Nat → Nat) : Nat → List α → List α
  | 0, _ => []
  | _ + 1, [] => []
  | k + 1, x :: xs =>
    (x :: xs).getD (rand (k + 1) % (x :: xs).length) x ::
      pySample rand k ((x :: xs).eraseIdx (rand (k + 1) % (x :: xs).length))

structure SelectResult where
  selected : List Track
  effective : Nat
  warned : Bool
deriving DecidableEq, Repr

/-- Model of the selection step of `update_true_shuffle`
(update_true_shuffle.py lines 144-153): when fewer liked tracks exist than
requested, the count is clamped to the list length with a warning printed;
then `random.sample` picks that many tracks. -/
def selectRandomSongs (liked_tracks : List Track) (num_songs : Nat) (rand : Nat → Nat) :
    SelectResult :=
  if liked_tracks.length < num_songs then
    { selected := pySample rand liked_tracks.length liked_tracks
      effective := liked_tracks.length
      warned := true }
  else
    { selected := pySample rand num_songs liked_tracks
      effective := num_songs
      warned := false }

/-! ## Batched playlist replacement (update_true_shuffle.py lines 70-108 and 156-161) -/

/-- The slicing loop `for i in range(0, len(uris), 100): uris[i:i+100]` used
both to append and to remove tracks: chunks of at most 100, in order. -/
def pyBatches {α : Type} (l : List α) : List (List α) :=
  if l.isEmpty then [] else l.take 100 :: pyBatches (l.drop 100)
termination_by l.length
decreasing_by
  simp only [List.length_drop]
  cases l with
  | nil => simp [List.isEmpty] at *
  | cons x xs => simp only [List.length_cons]; omega

/-- A playlist-membership item as `sp.playlist_items` returns it: the nested
track object may be null (deleted tracks), and its URI may be empty. -/
structure PlaylistTrack where
  uri : String
deriving DecidableEq, Repr

structure PlaylistItem where
  track : Option PlaylistTrack
deriving DecidableEq, Repr

/-- The list comprehension at update_true_shuffle.py lines 93-97: keep the
URI of each item whose track is non-null and whose URI is truthy. -/
def validUris (items : List PlaylistItem) : List String :=
  items.filterMap fun item =>
    match item.track with
    | none => none
    | some t => if t.uri = "" then none else some t.uri

/-- Model of `clear_playlist` (update_true_shuffle.py lines 70-108): the
sequence of removal batches it issues. Both early returns (empty playlist,
no valid URIs) issue none. -/
def clear_playlist_removals (items : List PlaylistItem) : List (List String) :=
  if items.isEmpty then []
  else
    let track_uris := validUris items
    if track_uris.isEmpty then [] else pyBatches track_uris

/-- Model of the append loop of `update_true_shuffle`
(update_true_shuffle.py lines 156-161): the sequence of append batches. -/
def appendBatches (track_uris : List String) : List (List String) :=
  pyBatches track_uris

/-! ## Get-or-create playlist (update_true_shuffle.py lines 21-67, identical
to src/utils.py lines 100-146)

The Spotify client is modelled by the outcomes of the calls the function can
make: the lookup `sp.playlist(playlist_id)`, the privacy update
`sp.playlist_change_details`, the refreshed lookup after it, and the id the
service would assign on `sp.user_playlist_create`. Any of the fallible calls
may raise any exception (`Except.error`), covering transport failures as
well as a missing playlist; the bare `except Exception` catches them all. -/

structure Playlist where
  id : String
  name : String
  description : String
  publicFlag : Option Bool
deriving DecidableEq, Repr

structure SpClient where
  lookup : Except PyError Playlist
  changeDetails : Except PyError Unit
  lookupAfterChange : Except PyError Playlist
  userId : String
  createdId : String
deriving DecidableEq, Repr

/-- Model of `sp.user_playlist_create(user, name, public, description)`: the
record of the freshly created playlist. -/
def user_playlist_create (sp : SpClient) (name : String) (pub : Bool) (description : String) :
    Playlist :=
  { id := sp.createdId, name := name, description := description, publicFlag := some pub }

structure GocOutcome where
  playlist : Playlist
  created : Bool
deriving DecidableEq, Repr

/-- The body of the `try` block (update_true_shuffle.py lines 36-51): look the
playlist up, normalise its privacy flag if it differs (`playlist.get public`
models as an optional field), refreshing the record after the update. -/
def gocTryBlock (sp : SpClient) (pub : Bool) : Except PyError Playlist := do
  let playlist ← sp.lookup
  if playlist.publicFlag ≠ some pub then
    let _ ← sp.changeDetails
    sp.lookupAfterChange
  else
    pure playlist

/-- Model of `get_or_create_playlist` (update_true_shuffle.py lines 21-67):
any exception in the try block falls through to creating a new playlist with
the given name, description and visibility. -/
def get_or_create_playlist (sp : SpClient) (playlist_name description : String) (pub : Bool) :
    GocOutcome :=
  match gocTryBlock sp pub with
  | Except.ok playlist => { playlist := playlist, created := false }
  | Except.error _ =>
    { playlist := user_playlist_create sp playlist_name pub description, created := true }

/-! ## Helper lemmas -/

theorem getD_cons_eraseIdx_perm {α : Type} (d : α) :
    ∀ (l : List α) (i : Nat), i < l.length → (l.getD i d :: l.eraseIdx i).Perm l := by
  intro l
  induction l with
  | nil => intro i h; simp at h
  | cons x xs ih =>
    intro i h
    cases i with
    | zero => simp [List.getD]
    | succ n =>
      have hn : n < xs.length := by simpa using h
      have h1 : ((x :: xs).getD (n + 1) d :: (x :: xs).eraseIdx (n + 1)) =
          xs.getD n d :: x :: xs.eraseIdx n := by
        simp [List.getD]
      rw [h1]
      have h2 : (xs.getD n d :: x :: xs.eraseIdx n).Perm (x :: xs.getD n d :: xs.eraseIdx n) :=
        List.Perm.swap _ _ _
      exact h2.trans ((ih n hn).cons x)

theorem pySample_subperm {α : Type} (rand : Nat → Nat) :
    ∀ (k : Nat) (l : List α), (pySample rand k l).Subperm l := by
  intro k
  induction k with
  | zero => intro l; exact List.nil_subperm
  | succ k ih =>
    intro l
    cases l with
    | nil => exact List.nil_subperm
    | cons x xs =>
      rw [pySample]
      have hi : rand (k + 1) % (x :: xs).length < (x :: xs).length :=
        Nat.mod_lt _ (by simp)
      have h1 := (List.subperm_cons ((x :: xs).getD (rand (k + 1) % (x :: xs).length) x)).mpr
        (ih ((x :: xs).eraseIdx (rand (k + 1) % (x :: xs).length)))
      exact h1.trans (getD_cons_eraseIdx_perm x _ _ hi).subperm

theorem pySample_length {α : Type} (rand : Nat → Nat) :
    ∀ (k : Nat) (l : List α), k ≤ l.length → (pySample rand k l).length = k := by
  intro k
  induction k with
  | zero => intro l _; rfl
  | succ k ih =>
    intro l hk
    cases l with
    | nil => simp at hk
    | cons x xs =>
      have hi : rand (k + 1) % (x :: xs).length < (x :: xs).length :=
        Nat.mod_lt _ (by simp)
      have hlen := List.length_eraseIdx_add_one hi
      have hk2 : k ≤ (((x :: xs).eraseIdx (rand (k + 1) % (x :: xs).length))).length := by
        omega
      rw [pySample]
      simp only [List.length_cons] at hk2 ⊢
      rw [ih _ hk2]

theorem pySample_perm_of_full {α : Type} (rand : Nat → Nat) (l : List α) :
    (pySample rand l.length l).Perm l := by
  have h1 := pySample_subperm rand l.length l
  exact h1.perm_of_length_le (by rw [pySample_length rand l.length l (Nat.le_refl _)])

theorem pyBatches_flatten {α : Type} (l : List α) : (pyBatches l).flatten = l := by
  induction l using pyBatches.induct with
  | case1 l h => rw [pyBatches, if_pos h, List.isEmpty_iff.mp h]; rfl
  | case2 l h ih => rw [pyBatches, if_neg h, List.flatten_cons, ih, List.take_append_drop]

theorem pyBatches_length {α : Type} (l : List α) :
    (pyBatches l).length = (l.length + 99) / 100 := by
  induction l using pyBatches.induct with
  | case1 l h => rw [pyBatches, if_pos h, List.isEmpty_iff.mp h]; simp
  | case2 l h ih =>
    have h0 : l.length ≠ 0 := by
      intro hc
      exact h (List.isEmpty_iff.mpr (List.length_eq_zero.mp hc))
    rw [pyBatches, if_neg h, List.length_cons, ih, List.length_drop]
    omega

theorem pyBatches_batch_le {α : Type} (l : List α) : ∀ b ∈ pyBatches l, b.length ≤ 100 := by
  induction l using pyBatches.induct with
  | case1 l h => rw [pyBatches, if_pos h]; intro b hb; cases hb
  | case2 l h ih =>
    rw [pyBatches, if_neg h]
    intro b hb
    cases hb with
    | head => simp
    | tail _ hb2 => exact ih b hb2

theorem clear_playlist_removals_eq (items : List PlaylistItem) :
    clear_playlist_removals items = pyBatches (validUris items) := by
  unfold clear_playlist_removals
  by_cases h : items.isEmpty
  · have : items = [] := List.isEmpty_iff.mp h
    subst this
    simp [validUris, pyBatches]
  · rw [if_neg h]
    by_cases h2 : (validUris items).isEmpty
    · rw [if_pos h2, pyBatches, if_pos h2]
    · rw [if_neg h2]

/-- In every change check against an actual timestamp string, exactly one
full paginated fetch pass happens (lines 88-94 run before the timestamp is
examined). -/
theorem get_new_liked_songs_since_passes (remote : List Track) (s : String) :
    (get_new_liked_songs_since remote (some s)).2 = 1 := by
  cases h : parseSinceTimestamp s <;> simp [get_new_liked_songs_since, h]

/-- Boolean filter predicate of the change detector, characterised. -/
theorem isNewSince_eq_true_iff (dt : PyDatetime) (item : Track) :
    isNewSince dt item = true ↔
      ∃ a, item.added_at = some a ∧ ∃ d, parseAddedAt a = some d ∧ dt.instant < d.instant := by
  obtain ⟨aa, u⟩ := item
  cases aa with
  | none => simp [isNewSince]
  | some a =>
    cases hp : parseAddedAt a with
    | none => simp [isNewSince, hp]
    | some d =>
      simp only [isNewSince, hp, decide_eq_true_eq]
      constructor
      · intro hlt
        exact ⟨a, rfl, d, hp, hlt⟩
      · rintro ⟨a2, ha2, d2, hd2, hlt⟩
        cases ha2
        rw [hp] at hd2
        cases hd2
        exact hlt

/-! ## Concrete fixtures used by witnesses and counterexamples -/

def trackOld : Track :=
  { added_at := some "2023-01-01T00:00:00Z", uri := "spotify:track:old" }

def trackNew : Track :=
  { added_at := some "2023-01-02T12:00:00Z", uri := "spotify:track:new" }

/-- A cache of one old track, remote unchanged since the capture instant. -/
def envUnchanged : Env :=
  { disk := DiskCache.object
      { tracks := some [trackOld]
        timestamp := some "2023-01-01T06:00:00+00:00"
        total_count := some 1 }
    remote := [trackOld]
    now := "2023-01-03T00:00:00+00:00" }

/-- A cache of ten tracks captured at T0; the remote collection holds those
ten plus one track added after T0. -/
def envOneAdded : Env :=
  { disk := DiskCache.object
      { tracks := some (List.replicate 10 trackOld)
        timestamp := some "2023-01-01T06:00:00+00:00"
        total_count := some 10 }
    remote := List.replicate 10 trackOld ++ [trackNew]
    now := "2023-01-03T00:00:00+00:00" }

/-- A cache whose stored timestamp string does not parse. -/
def envBadTimestamp : Env :=
  { disk := DiskCache.object
      { tracks := some [trackOld]
        timestamp := some "not-a-timestamp"
        total_count := some 1 }
    remote := [trackOld, trackNew]
    now := "2023-01-03T00:00:00+00:00" }

/-! ## Claim theorems -/

/-- C1: for every cache snapshot present on disk whose change-check against
the remote collection yields an empty new-item list, `get_liked_songs` with
`use_cache = True` returns exactly the cached items, unchanged and in cached
order, performs no fetch passes beyond the single paginated pass of the
change-check itself, and leaves the cache file untouched. -/
theorem claim_C1_unchanged_cache_served (env : Env) (cached : List Track) (ts : String)
    (s : Bool)
    (hload : load_liked_songs_from_disk env.disk = Except.ok (some cached, some ts))
    (hempty : (get_new_liked_songs_since env.remote (some ts)).1 = some []) :
    get_liked_songs env s true =
      { result := Except.ok cached, fetchPasses := 1, finalDisk := env.disk } := by
  simp [get_liked_songs, hload, hempty, get_new_liked_songs_since_passes]

/-- Witness for C1 on a concrete snapshot: one cached track, remote equal to
the cache, change-check empty, served from cache with one pass. -/
theorem claim_C1_witness :
    load_liked_songs_from_disk envUnchanged.disk =
        Except.ok (some [trackOld], some "2023-01-01T06:00:00+00:00") ∧
      (get_new_liked_songs_since envUnchanged.remote
          (some "2023-01-01T06:00:00+00:00")).1 = some [] ∧
      get_liked_songs envUnchanged true true =
        { result := Except.ok [trackOld], fetchPasses := 1, finalDisk := envUnchanged.disk } :=
  ⟨by decide, by decide,
    claim_C1_unchanged_cache_served envUnchanged [trackOld] "2023-01-01T06:00:00+00:00" true
      (by decide) (by decide)⟩

/-- C2 as stated is false: on a ten-item cache with one remote item added
later, the run returns all eleven items but performs two full paginated
fetch passes (the change-check pass at get_liked_songs.py lines 87-94 and
the refetch at lines 199-211), not one. -/
theorem claim_C2_counterexample :
    (get_liked_songs envOneAdded true true).result = Except.ok envOneAdded.remote ∧
      envOneAdded.remote.length = 11 ∧
      (get_liked_songs envOneAdded true true).fetchPasses = 2 ∧
      ¬(get_liked_songs envOneAdded true true).fetchPasses = 1 := by
  refine ⟨?_, ?_, ?_, ?_⟩ <;> decide

/-- C2 amended: for every run where the cache holds items captured at T0 and
the change-check finds a non-empty new-item list, `get_liked_songs` produces
a snapshot containing all current remote items and performs exactly two full
paginated fetch passes — the change-check pass plus one full refetch — and
overwrites the cache with the fresh snapshot. -/
theorem claim_C2_new_items_full_refetch (env : Env) (cached newTracks : List Track)
    (ts : String)
    (hload : load_liked_songs_from_disk env.disk = Except.ok (some cached, some ts))
    (hnew : (get_new_liked_songs_since env.remote (some ts)).1 = some newTracks)
    (hne : newTracks ≠ []) :
    get_liked_songs env true true =
      { result := Except.ok env.remote
        fetchPasses := 2
        finalDisk := save_liked_songs_to_disk env.remote env.now } := by
  have hpos : 0 < newTracks.length := List.length_pos.mpr hne
  simp [get_liked_songs, hload, hnew, hpos, get_new_liked_songs_since_passes, fullFetchFrom]

/-- Witness for the amended C2 at the ten-plus-one scenario. -/
theorem claim_C2_witness :
    get_liked_songs envOneAdded true true =
      { result := Except.ok envOneAdded.remote
        fetchPasses := 2
        finalDisk := save_liked_songs_to_disk envOneAdded.remote envOneAdded.now } :=
  claim_C2_new_items_full_refetch envOneAdded (List.replicate 10 trackOld) [trackNew]
    "2023-01-01T06:00:00+00:00" (by decide) (by decide) (by decide)

/-- C4: for every run where the change-check is indeterminate (the detector
returns the None outcome, e.g. because the cached timestamp does not parse),
`get_liked_songs` does not serve the cache: it performs the full paginated
refetch, saves the fresh snapshot, and returns the freshly fetched items. -/
theorem claim_C4_indeterminate_full_refetch (env : Env) (cached : List Track) (ts : String)
    (hload : load_liked_songs_from_disk env.disk = Except.ok (some cached, some ts))
    (herr : (get_new_liked_songs_since env.remote (some ts)).1 = none) :
    get_liked_songs env true true =
      { result := Except.ok env.remote
        fetchPasses := 2
        finalDisk := save_liked_songs_to_disk env.remote env.now } := by
  simp [get_liked_songs, hload, herr, get_new_liked_songs_since_passes, fullFetchFrom]

/-- Witness for C4: an unparseable cached timestamp forces the refetch. -/
theorem claim_C4_witness :
    get_liked_songs envBadTimestamp true true =
      { result := Except.ok envBadTimestamp.remote
        fetchPasses := 2
        finalDisk := save_liked_songs_to_disk envBadTimestamp.remote envBadTimestamp.now } :=
  claim_C4_indeterminate_full_refetch envBadTimestamp [trackOld] "not-a-timestamp"
    (by decide) (by decide)

/-- C9: every list `get_liked_songs` returns is wholly one of the two
sources — exactly the freshly fetched remote list, or exactly the cached
list that `load` produced; no run mixes the two. -/
theorem claim_C9_no_mixing (env : Env) (s u : Bool) (l : List Track)
    (h : (get_liked_songs env s u).result = Except.ok l) :
    l = env.remote ∨
      ∃ ts, load_liked_songs_from_disk env.disk = Except.ok (some l, ts) := by
  unfold get_liked_songs at h
  split at h
  · split at h
    · simp at h
    · rename_i heq
      split at h
      · split at h
        · split at h
          · left
            simp [fullFetchFrom] at h
            exact h.symm
          · rename_i hcached hchk hlen
            right
            simp at h
            subst h
            exact ⟨_, heq⟩
        · left
          simp [fullFetchFrom] at h
          exact h.symm
      · left
        simp [fullFetchFrom] at h
        exact h.symm
  · left
    simp [fullFetchFrom] at h
    exact h.symm

/-- Witness for C9 at a concrete run that serves the cache. -/
theorem claim_C9_witness :
    [trackOld] = envUnchanged.remote ∨
      ∃ ts, load_liked_songs_from_disk envUnchanged.disk = Except.ok (some [trackOld], ts) :=
  claim_C9_no_mixing envUnchanged true true [trackOld] (by decide)

/-- C3: for every fetched item list and parseable cache instant, the
detector's new-item list is exactly the in-order sublist of items whose
added-at field is present, parses, and strictly exceeds the cache instant
after UTC normalisation; missing or unparseable added-at fields are skipped,
and the operation never fails (it returns a list for any item data). -/
theorem claim_C3_new_item_characterisation (remote : List Track) (s : String)
    (dt : PyDatetime) (hparse : parseSinceTimestamp s = some dt) :
    ∃ l, (get_new_liked_songs_since remote (some s)).1 = some l ∧
      l.Sublist remote ∧
      ∀ item : Track, item ∈ l ↔ item ∈ remote ∧
        ∃ a, item.added_at = some a ∧
          ∃ d, parseAddedAt a = some d ∧ dt.instant < d.instant := by
  refine ⟨remote.filter (isNewSince dt), ?_, List.filter_sublist remote, ?_⟩
  · simp [get_new_liked_songs_since, hparse]
  · intro item
    rw [List.mem_filter, isNewSince_eq_true_iff]

/-- Witness for C3: remote list holding an item with no added-at field, an
item with an unparseable one, an old item and a new item; the detector keeps
exactly the new item and does not fail. -/
theorem claim_C3_witness :
    parseSinceTimestamp "2023-01-01T06:00:00+00:00" =
        some { wall := 63808236000000000, tz := some 0 } ∧
      ∃ l, (get_new_liked_songs_since
          [{ added_at := none, uri := "u0" },
           { added_at := some "not-a-date", uri := "u1" },
           trackOld, trackNew] (some "2023-01-01T06:00:00+00:00")).1 = some l ∧
        l.Sublist [{ added_at := none, uri := "u0" },
           { added_at := some "not-a-date", uri := "u1" },
           trackOld, trackNew] ∧
        ∀ item : Track,
          item ∈ l ↔ item ∈ [{ added_at := none, uri := "u0" },
            { added_at := some "not-a-date", uri := "u1" },
            trackOld, trackNew] ∧
          ∃ a, item.added_at = some a ∧
            ∃ d, parseAddedAt a = some d ∧
              PyDatetime.instant { wall := 63808236000000000, tz := some 0 } < d.instant :=
  ⟨by decide,
    claim_C3_new_item_characterisation
      [{ added_at := none, uri := "u0" },
       { added_at := some "not-a-date", uri := "u1" },
       trackOld, trackNew] "2023-01-01T06:00:00+00:00"
      { wall := 63808236000000000, tz := some 0 } (by decide)⟩

/-- C5 as stated is false: a cache file whose content is valid JSON but not
an object — for example a file containing an empty JSON array — is not
deserialisable as the expected snapshot, yet `load_liked_songs_from_disk`
raises `AttributeError` (the `except` clause at get_liked_songs.py line 66
catches only `JSONDecodeError` and `KeyError`, and `cache_data.get` on a
list raises `AttributeError`), and `get_liked_songs` propagates it. -/
theorem claim_C5_counterexample :
    load_liked_songs_from_disk DiskCache.nonObject = Except.error PyError.attributeError ∧
      ¬load_liked_songs_from_disk DiskCache.nonObject = Except.ok (none, none) ∧
      (get_liked_songs { disk := DiskCache.nonObject, remote := [], now := "" } true true).result
        = Except.error PyError.attributeError := by
  refine ⟨?_, ?_, ?_⟩ <;> decide

/-- C5 amended: for every on-disk cache file whose content fails JSON
decoding, `load_liked_songs_from_disk` behaves identically to the file being
absent — it returns the absent result and raises nothing — and
`get_liked_songs` then performs a full refetch without raising; content that
decodes to a non-object JSON value, however, raises `AttributeError`. -/
theorem claim_C5_malformed_like_absent (remote : List Track) (now : String) (s : Bool) :
    load_liked_songs_from_disk DiskCache.malformed = Except.ok (none, none) ∧
      load_liked_songs_from_disk DiskCache.malformed =
        load_liked_songs_from_disk DiskCache.absent ∧
      get_liked_songs { disk := DiskCache.malformed, remote := remote, now := now } s true =
        fullFetchFrom { disk := DiskCache.malformed, remote := remote, now := now } s 0 ∧
      (get_liked_songs { disk := DiskCache.malformed, remote := remote, now := now } s true).result
        = Except.ok remote ∧
      (get_liked_songs { disk := DiskCache.malformed, remote := remote, now := now } true
            true).finalDisk
        = save_liked_songs_to_disk remote now := by
  refine ⟨rfl, rfl, ?_, ?_, ?_⟩ <;>
    simp [get_liked_songs, load_liked_songs_from_disk, fullFetchFrom]

/-- C6: saving any track list at any capture instant and loading it back
yields the same tracks in the same order, and the snapshot written to disk
records `total_count` equal to the length of the track list. -/
theorem claim_C6_save_load_roundtrip (tracks : List Track) (now : String) :
    ∃ o, save_liked_songs_to_disk tracks now = DiskCache.object o ∧
      o.total_count = some tracks.length ∧
      load_liked_songs_from_disk (save_liked_songs_to_disk tracks now) =
        Except.ok (some tracks, some now) :=
  ⟨{ tracks := some tracks, timestamp := some now, total_count := some tracks.length },
    rfl, rfl, rfl⟩

/-- C7: when the requested count is at most the number of items, the
selection step returns exactly that many elements drawn from distinct
positions (a subpermutation, so no position repeats) without warning; when
the requested count exceeds the number of items, it clamps the effective
count to the list length, returns all of the items (a permutation of them),
and emits a warning signal rather than an error. -/
theorem claim_C7_selection :
    (∀ (liked : List Track) (k : Nat) (rand : Nat → Nat), k ≤ liked.length →
      (selectRandomSongs liked k rand).selected.length = k ∧
        (selectRandomSongs liked k rand).selected.Subperm liked ∧
        (selectRandomSongs liked k rand).effective = k ∧
        (selectRandomSongs liked k rand).warned = false) ∧
    (∀ (liked : List Track) (k : Nat) (rand : Nat → Nat), liked.length < k →
      (selectRandomSongs liked k rand).selected.Perm liked ∧
        (selectRandomSongs liked k rand).effective = liked.length ∧
        (selectRandomSongs liked k rand).warned = true) := by
  constructor
  · intro liked k rand hk
    have hnot : ¬liked.length < k := Nat.not_lt.mpr hk
    unfold selectRandomSongs
    rw [if_neg hnot]
    exact ⟨pySample_length rand k liked hk, pySample_subperm rand k liked, rfl, rfl⟩
  · intro liked k rand hk
    unfold selectRandomSongs
    rw [if_pos hk]
    exact ⟨pySample_perm_of_full rand liked, rfl, rfl⟩

/-- Witness for C7: both branches at concrete inputs — two tracks with one
requested, and two tracks with one hundred fifty requested. -/
theorem claim_C7_witness :
    ((selectRandomSongs [trackOld, trackNew] 1 id).selected.length = 1 ∧
      (selectRandomSongs [trackOld, trackNew] 1 id).selected.Subperm [trackOld, trackNew] ∧
      (selectRandomSongs [trackOld, trackNew] 1 id).effective = 1 ∧
      (selectRandomSongs [trackOld, trackNew] 1 id).warned = false) ∧
    ((selectRandomSongs [trackOld, trackNew] 150 id).selected.Perm [trackOld, trackNew] ∧
      (selectRandomSongs [trackOld, trackNew] 150 id).effective =
        ([trackOld, trackNew] : List Track).length ∧
      (selectRandomSongs [trackOld, trackNew] 150 id).warned = true) :=
  ⟨claim_C7_selection.1 [trackOld, trackNew] 1 id (by decide),
    claim_C7_selection.2 [trackOld, trackNew] 150 id (by decide)⟩

/-- C8 as stated is false: a destination playlist can hold members whose
track object is null (deleted tracks); `clear_playlist` filters those out
before batching (update_true_shuffle.py lines 93-97), so a playlist with one
null-track member yields zero removal batches, not `ceil(1/100) = 1`. -/
theorem claim_C8_counterexample :
    clear_playlist_removals [{ track := none }] = [] ∧
      ([{ track := none }] : List PlaylistItem).length = 1 ∧
      ¬(clear_playlist_removals [{ track := none }]).length =
        (([{ track := none }] : List PlaylistItem).length + 99) / 100 := by
  refine ⟨?_, ?_, ?_⟩ <;> decide

/-- C8 amended: the replacement flow issues `ceil(n/100)` append batches for
`n` submitted URIs and `ceil(v/100)` removal batches, where `v` counts the
current members with a valid (non-null, nonempty-URI) track; every batch
holds at most 100 URIs and concatenating the batches restores the original
order exactly. -/
theorem claim_C8_batching (uris : List String) (items : List PlaylistItem) :
    (appendBatches uris).length = (uris.length + 99) / 100 ∧
      (∀ b ∈ appendBatches uris, b.length ≤ 100) ∧
      (appendBatches uris).flatten = uris ∧
      clear_playlist_removals items = pyBatches (validUris items) ∧
      (clear_playlist_removals items).length = ((validUris items).length + 99) / 100 ∧
      (∀ b ∈ clear_playlist_removals items, b.length ≤ 100) ∧
      (clear_playlist_removals items).flatten = validUris items := by
  refine ⟨pyBatches_length uris, pyBatches_batch_le uris, pyBatches_flatten uris,
    clear_playlist_removals_eq items, ?_, ?_, ?_⟩ <;> rw [clear_playlist_removals_eq]
  · exact pyBatches_length _
  · exact pyBatches_batch_le _
  · exact pyBatches_flatten _

/-- C10: every exception from the playlist lookup — the model quantifies
over all exception values, covering transport failures as well as a missing
playlist — is caught, and a brand-new playlist with the given name,
description and visibility is created and returned, so a lookup failure
always results in a creation call. (The creation call itself and the
current-user lookup are modelled as succeeding.) -/
theorem claim_C10_lookup_failure_creates (sp : SpClient) (name desc : String) (pub : Bool)
    (e : PyError) (hfail : sp.lookup = Except.error e) :
    get_or_create_playlist sp name desc pub =
      { playlist :=
          { id := sp.createdId
            name := name
            description := desc
            publicFlag := some pub }
        created := true } := by
  simp [get_or_create_playlist, gocTryBlock, hfail, user_playlist_create, Bind.bind, Except.bind]

/-- A client whose playlist lookup raises a transport error. -/
def spLookupFails : SpClient :=
  { lookup := Except.error PyError.transportError
    changeDetails := Except.ok ()
    lookupAfterChange :=
      Except.ok { id := "x", name := "n", description := "d", publicFlag := some false }
    userId := "user"
    createdId := "new-playlist-id" }

/-- Witness for C10: a transport failure during lookup leads to creation. -/
theorem claim_C10_witness :
    get_or_create_playlist spLookupFails "True Shuffle" "a description" false =
      { playlist :=
          { id := "new-playlist-id"
            name := "True Shuffle"
            description := "a description"
            publicFlag := some false }
        created := true } :=
  claim_C10_lookup_failure_creates spLookupFails "True Shuffle" "a description" false
    PyError.transportError rfl

end SpotifyShuffle
